import Mathlib

/-!
Shallow embedding of `search_service/api/filter.py`.

The file defines `BaseFilterAPI.post` (a request handler shared by a table
resource and a dashboard resource), built on `flask_restful.reqparse` for
body parsing and on an external proxy client for the actual search.  The
embedding models a request body as an association list of field names to
JSON-ish values, the proxy as a function that either returns a list of raw
results or fails with an exception, and a result schema as a serialization
function applied element-wise.  Exceptions are explicit values: the handler
functions return the outcome (normal response, parse-time abort, or a
propagating exception) together with the list of proxy calls that were made.
-/

set_option autoImplicit false

namespace SearchService

/-- An opaque JSON object, used for the `search_request` payload. -/
abbrev JsonDict := List (String × String)

/-- A JSON-ish value appearing in a request body field. -/
inductive RawValue where
  | vstr (s : String)
  | vint (n : Int)
  | vdict (d : JsonDict)
  deriving DecidableEq, Repr

/-- An incoming HTTP request body: field names with their values. -/
structure RawRequest where
  fields : List (String × RawValue)
  deriving DecidableEq, Repr

/-- HTTP status `HTTPStatus.OK`. -/
def OK : Nat := 200

/-- HTTP status `HTTPStatus.BAD_REQUEST`. -/
def BAD_REQUEST : Nat := 400

/-- HTTP status `HTTPStatus.INTERNAL_SERVER_ERROR`. -/
def INTERNAL_SERVER_ERROR : Nat := 500

/-- Python exceptions that can cross the handler boundary.  `runtimeError`
is `RuntimeError` (the only class caught by the resource wrappers);
`typeError` and `valueError` stand for exception classes that are not
subclasses of `RuntimeError` and hence are never caught here. -/
inductive Exc where
  | runtimeError (msg : String)
  | typeError (msg : String)
  | valueError (msg : String)
  deriving DecidableEq, Repr

/-- Modelled from the spec: the constant `TABLE_INDEX` is imported from
`search_service.api.table`, a module absent from the provided sources; the
spec describes it as the well-known default "table" index name. -/
def TABLE_INDEX : String := "table"

/-- Rendering of a dict by Python `str`, used only when a dict value is
coerced by the `type=str` arguments (the exact text is immaterial). -/
def dict_str (d : JsonDict) : String :=
  String.intercalate ", " (d.map (fun p => p.1 ++ ": " ++ p.2))

/-- Conversion performed by a reqparse argument declared with `type=str`:
Python `str(value)` succeeds on every value. -/
def str_conv : RawValue → String
  | .vstr s => s
  | .vint n => toString n
  | .vdict d => dict_str d

/-- Python membership test `c in s` for a character and a string. -/
def char_in (c : Char) (s : String) : Bool := s.data.contains c

/-- Python `int(s)` on a string: an optional minus sign followed by at
least one decimal digit; anything else raises `ValueError`. -/
def py_str_to_int (s : String) : Option Int :=
  match s.data with
  | [] => none
  | '-' :: rest =>
      if rest ≠ [] ∧ rest.all Char.isDigit then
        some (-((rest.foldl (fun n c => 10 * n + (c.toNat - 48)) 0 : Nat) : Int))
      else none
  | l =>
      if l.all Char.isDigit then
        some ((l.foldl (fun n c => 10 * n + (c.toNat - 48)) 0 : Nat) : Int)
      else none

/-- Conversion performed by the reqparse argument declared with `type=int`:
Python `int(value)` succeeds on integers and on strings denoting integers,
and raises on anything else. -/
def int_conv : RawValue → Except String Int
  | .vint n => .ok n
  | .vstr s =>
      match py_str_to_int s with
      | some n => .ok n
      | none => .error ("invalid literal for int() with base 10: " ++ s)
  | .vdict _ => .error "int() argument must be a string or a number, not dict"

/-- Conversion performed by the reqparse argument declared with `type=dict`:
succeeds exactly on dict values. -/
def dict_conv : RawValue → Except String JsonDict
  | .vdict d => .ok d
  | .vstr _ => .error "cannot convert str to dict"
  | .vint _ => .error "cannot convert int to dict"

/-- First value bound to `name` in the request body, if any. -/
def lookupField (req : RawRequest) (name : String) : Option RawValue :=
  (req.fields.find? (fun p => p.1 == name)).map Prod.snd

/-- The four fields registered on the parser in `BaseFilterAPI.__init__`. -/
def recognized_fields : List String :=
  ["index", "page_index", "query_term", "search_request"]

/-- Names of body fields that no registered argument consumes. -/
def unknownFields (req : RawRequest) : List String :=
  (req.fields.filter (fun p => !(recognized_fields.contains p.1))).map Prod.fst

/-- Modelled from the spec: per-argument conversion errors collected by
`flask_restful.reqparse.RequestParser(bundle_errors=True)`, whose code is a
third-party dependency not in the sources; per the spec all parse errors are
bundled and reported together.  Arguments are checked in registration order;
the two `type=str` arguments never fail conversion. -/
def argErrors (req : RawRequest) : List (String × String) :=
  (match lookupField req "page_index" with
   | some v =>
       match int_conv v with
       | .error m => [("page_index", m)]
       | .ok _ => []
   | none => []) ++
  (match lookupField req "search_request" with
   | some v =>
       match dict_conv v with
       | .error m => [("search_request", m)]
       | .ok _ => []
   | none => [])

/-- The namespace produced by a successful `parser.parse_args(strict=True)`:
missing optional fields take their declared defaults (`TABLE_INDEX`, `0`)
or `None` (modelled by `Option`). -/
structure ParsedArgs where
  index : String
  page_index : Int
  query_term : Option String
  search_request : Option JsonDict
  deriving DecidableEq, Repr

/-- How `parse_args(strict=True)` rejects a request: a bundle of
per-argument conversion errors (`abort(400, message=errors)`), or a
`BadRequest` naming the unrecognized fields (the `strict=True` check,
reached only when no conversion error occurred). -/
inductive ParseFailure where
  | bundled (errors : List (String × String))
  | unknownArgs (names : List String)
  deriving DecidableEq, Repr

/-- The namespace built once every conversion succeeded. -/
def parsedOf (req : RawRequest) : ParsedArgs where
  index :=
    match lookupField req "index" with
    | some v => str_conv v
    | none => TABLE_INDEX
  page_index :=
    match lookupField req "page_index" with
    | some v =>
        match int_conv v with
        | .ok n => n
        | .error _ => 0
    | none => 0
  query_term :=
    match lookupField req "query_term" with
    | some v => some (str_conv v)
    | none => none
  search_request :=
    match lookupField req "search_request" with
    | some v =>
        match dict_conv v with
        | .ok d => some d
        | .error _ => none
    | none => none

/-- Modelled from the spec: `self.parser.parse_args(strict=True)` of
`flask_restful.reqparse` (third-party code not in the sources).  Bundled
conversion errors abort first; otherwise a leftover unrecognized field
raises `BadRequest`; otherwise the parsed namespace is returned. -/
def parse_args (req : RawRequest) : Except ParseFailure ParsedArgs :=
  if argErrors req = [] then
    if unknownFields req = [] then .ok (parsedOf req)
    else .error (.unknownArgs (unknownFields req))
  else .error (.bundled (argErrors req))

/-- A response body: a serialized result list or a `{"message": ...}` dict. -/
inductive Body (σ : Type) where
  | results (items : List σ)
  | message (msg : String)
  deriving DecidableEq, Repr

/-- Observable outcome of a `post` call: a parse-time 400-class abort, a
returned `(body, status)` pair, or an exception propagating out. -/
inductive PostResult (σ : Type) where
  | parseFailure (f : ParseFailure)
  | response (body : Body σ) (status : Nat)
  | raised (e : Exc)
  deriving DecidableEq, Repr

/-- One invocation of `proxy.fetch_search_results_with_filter`, recording
the keyword arguments passed. -/
structure ProxyCall where
  search_request : JsonDict
  query_term : String
  page_index : Int
  index : String
  deriving DecidableEq, Repr

/-- The proxy client: `fetch_search_results_with_filter` either returns raw
results or fails with an exception. -/
abbrev Proxy (ρ : Type) := JsonDict → String → Int → String → Except Exc (List ρ)

/-- Embedding of `BaseFilterAPI.post`.  Parses the body, rejects a missing
`search_request` and a `query_term` containing a colon with the literal 400
messages, otherwise calls the proxy once and on success serializes the
results element-wise through the bound schema (200).  `':' in query_term`
raises `TypeError` when `query_term` is `None`; the trailing
`except RuntimeError as e: raise e` re-raises unchanged, so any proxy
exception propagates.  The second component lists the proxy calls made. -/
def base_post {ρ σ : Type} (proxy : Proxy ρ) (schema : ρ → σ)
    (req : RawRequest) : PostResult σ × List ProxyCall :=
  match parse_args req with
  | .error f => (.parseFailure f, [])
  | .ok args =>
    match args.search_request with
    | none =>
        (.response (.message "The search request payload is not available in the request")
          BAD_REQUEST, [])
    | some search_request =>
      match args.query_term with
      | none => (.raised (.typeError "argument of type NoneType is not iterable"), [])
      | some query_term =>
        if char_in ':' query_term then
          (.response (.message "The query term contains an invalid character")
            BAD_REQUEST, [])
        else
          let call : ProxyCall :=
            ⟨search_request, query_term, args.page_index, args.index⟩
          match proxy search_request query_term args.page_index args.index with
          | .ok results => (.response (.results (results.map schema)) OK, [call])
          | .error e => (.raised e, [call])

/-- Embedding of `SearchTableFilterAPI.post`: delegates to the base handler and converts
a `RuntimeError` — and only a `RuntimeError` — into the generic 500
response; every other outcome passes through unchanged. -/
def searchTableFilterAPI_post {ρ σ : Type} (proxy : Proxy ρ) (schema : ρ → σ)
    (req : RawRequest) : PostResult σ × List ProxyCall :=
  match base_post proxy schema req with
  | (.raised (.runtimeError _), calls) =>
      (.response (.message "Exception encountered while processing search request")
        INTERNAL_SERVER_ERROR, calls)
  | other => other

/-- Embedding of `SearchDashboardFilterAPI.post`: same wrapper text as the table
resource, bound to the dashboard result schema. -/
def searchDashboardFilterAPI_post {ρ σ : Type} (proxy : Proxy ρ) (schema : ρ → σ)
    (req : RawRequest) : PostResult σ × List ProxyCall :=
  match base_post proxy schema req with
  | (.raised (.runtimeError _), calls) =>
      (.response (.message "Exception encountered while processing search request")
        INTERNAL_SERVER_ERROR, calls)
  | other => other

/-- Forget the serialized items of a body, keeping its shape. -/
def eraseItems {σ : Type} : Body σ → Body Unit
  | .results items => .results (items.map fun _ => ())
  | .message m => .message m

/-- Forget the serialized items of an outcome, keeping statuses, messages,
parse failures and exceptions. -/
def erasePost {σ : Type} : PostResult σ → PostResult Unit
  | .parseFailure f => .parseFailure f
  | .response b s => .response (eraseItems b) s
  | .raised e => .raised e

/-! ### Helper lemmas -/

/-- Inversion of a successful parse: the parsed namespace is `parsedOf req`. -/
theorem parse_args_ok_inv {req : RawRequest} {args : ParsedArgs}
    (h : parse_args req = .ok args) : args = parsedOf req := by
  unfold parse_args at h
  split at h
  · split at h
    · exact (Except.ok.inj h).symm
    · exact absurd h (by simp)
  · exact absurd h (by simp)

/-- Every proxy call recorded by the base handler carries exactly the parsed
arguments; moreover at most one call is made. -/
theorem base_post_calls {ρ σ : Type} (proxy : Proxy ρ) (schema : ρ → σ)
    (req : RawRequest) {args : ParsedArgs} (hparse : parse_args req = .ok args) :
    ∀ c ∈ (base_post proxy schema req).2,
      args.search_request = some c.search_request ∧
      args.query_term = some c.query_term ∧
      c.page_index = args.page_index ∧ c.index = args.index := by
  intro c hc
  unfold base_post at hc
  rw [hparse] at hc
  obtain ⟨idx, pi, qt0, sr0⟩ := args
  cases sr0 with
  | none => simp at hc
  | some sr =>
    cases qt0 with
    | none => simp at hc
    | some qt =>
      by_cases hcolon : char_in ':' qt
      · simp [hcolon] at hc
      · cases hproxy : proxy sr qt pi idx with
        | ok rs =>
          simp [hcolon, hproxy] at hc
          subst hc
          simp
        | error e =>
          simp [hcolon, hproxy] at hc
          subst hc
          simp

/-- The table wrapper never changes the recorded proxy calls. -/
theorem searchTable_calls_eq {ρ σ : Type} (proxy : Proxy ρ) (schema : ρ → σ)
    (req : RawRequest) :
    (searchTableFilterAPI_post proxy schema req).2 = (base_post proxy schema req).2 := by
  unfold searchTableFilterAPI_post
  rcases h : base_post proxy schema req with ⟨r, calls⟩
  cases r with
  | raised e => cases e <;> simp
  | parseFailure f => simp
  | response b s => simp

/-- The dashboard wrapper never changes the recorded proxy calls. -/
theorem searchDashboard_calls_eq {ρ σ : Type} (proxy : Proxy ρ) (schema : ρ → σ)
    (req : RawRequest) :
    (searchDashboardFilterAPI_post proxy schema req).2 = (base_post proxy schema req).2 := by
  unfold searchDashboardFilterAPI_post
  rcases h : base_post proxy schema req with ⟨r, calls⟩
  cases r with
  | raised e => cases e <;> simp
  | parseFailure f => simp
  | response b s => simp

/-- When validation passes, the base handler makes exactly one proxy call,
with the parsed arguments, whatever the proxy then does. -/
theorem base_post_call_made {ρ σ : Type} (proxy : Proxy ρ) (schema : ρ → σ)
    (req : RawRequest) (args : ParsedArgs) (sr : JsonDict) (qt : String)
    (hparse : parse_args req = .ok args)
    (hsr : args.search_request = some sr)
    (hqt : args.query_term = some qt)
    (hcolon : char_in ':' qt = false) :
    (base_post proxy schema req).2 = [⟨sr, qt, args.page_index, args.index⟩] := by
  obtain ⟨idx, pi, qt0, sr0⟩ := args
  simp only at hsr hqt ⊢
  subst hsr
  subst hqt
  unfold base_post
  rw [hparse]
  cases hproxy : proxy sr qt pi idx <;> simp [hcolon, hproxy]

/-- When validation passes and the proxy fails, the exception propagates out
of the base handler unchanged (`except RuntimeError as e: raise e`). -/
theorem base_post_proxy_error {ρ σ : Type} (proxy : Proxy ρ) (schema : ρ → σ)
    (req : RawRequest) (args : ParsedArgs) (sr : JsonDict) (qt : String) (e : Exc)
    (hparse : parse_args req = .ok args)
    (hsr : args.search_request = some sr)
    (hqt : args.query_term = some qt)
    (hcolon : char_in ':' qt = false)
    (hproxy : proxy sr qt args.page_index args.index = .error e) :
    base_post proxy schema req = (.raised e, [⟨sr, qt, args.page_index, args.index⟩]) := by
  obtain ⟨idx, pi, qt0, sr0⟩ := args
  simp only at hsr hqt hproxy ⊢
  subst hsr
  subst hqt
  unfold base_post
  rw [hparse]
  simp [hcolon, hproxy]

/-! ### Claim theorems -/

/-- C1: for every request whose body parses, with `search_request` present
and `query_term` a string free of the colon character, `BaseFilterAPI.post`
calls `fetch_search_results_with_filter` exactly once, with exactly the
parsed `search_request`, `query_term`, `page_index` and `index`, and returns
HTTP 200 with the proxy result serialized element-wise through the bound
schema (possibly empty). -/
theorem base_post_valid_request_200 {ρ σ : Type} (proxy : Proxy ρ) (schema : ρ → σ)
    (req : RawRequest) (args : ParsedArgs) (sr : JsonDict) (qt : String) (rs : List ρ)
    (hparse : parse_args req = .ok args)
    (hsr : args.search_request = some sr)
    (hqt : args.query_term = some qt)
    (hcolon : char_in ':' qt = false)
    (hproxy : proxy sr qt args.page_index args.index = .ok rs) :
    base_post proxy schema req =
      (.response (.results (rs.map schema)) OK,
       [⟨sr, qt, args.page_index, args.index⟩]) := by
  obtain ⟨idx, pi, qt0, sr0⟩ := args
  simp only at hsr hqt hproxy ⊢
  subst hsr
  subst hqt
  unfold base_post
  rw [hparse]
  simp [hcolon, hproxy]

/-- C1 witness: a concrete request with all four fields recognized, on a
proxy returning one result, yields 200 with the serialized singleton and a
single proxy call with the parsed arguments. -/
theorem base_post_valid_request_200_witness :
    @base_post Nat String (fun _ _ _ _ => .ok [3]) (fun n => toString n)
      ⟨[("search_request", .vdict [("resource", "table")]),
        ("query_term", .vstr "foo"), ("page_index", .vint 2)]⟩ =
      (.response (.results ["3"]) OK,
       [⟨[("resource", "table")], "foo", 2, "table"⟩]) :=
  base_post_valid_request_200
    (fun _ _ _ _ => .ok [3]) (fun n => toString n)
    ⟨[("search_request", .vdict [("resource", "table")]),
      ("query_term", .vstr "foo"), ("page_index", .vint 2)]⟩
    ⟨TABLE_INDEX, 2, some "foo", some [("resource", "table")]⟩
    [("resource", "table")] "foo" [3] rfl rfl rfl rfl rfl

/-- C2 counterexample: a proxy failure that is not a `RuntimeError` (here a
`ValueError`) propagates out of the table resource as an unhandled fault —
the resource does not respond 500 — so "any failure whatsoever" fails: only
`RuntimeError` is caught. -/
theorem nonRuntimeError_escapes :
    (@searchTableFilterAPI_post Nat String
        (fun _ _ _ _ => .error (.valueError "connection refused"))
        (fun n => toString n)
        ⟨[("search_request", .vdict [("a", "b")]), ("query_term", .vstr "q")]⟩).1 =
      .raised (.valueError "connection refused") ∧
    (@searchTableFilterAPI_post Nat String
        (fun _ _ _ _ => .error (.valueError "connection refused"))
        (fun n => toString n)
        ⟨[("search_request", .vdict [("a", "b")]), ("query_term", .vstr "q")]⟩).1 ≠
      .response (.message "Exception encountered while processing search request")
        INTERNAL_SERVER_ERROR := by
  constructor
  · rfl
  · decide

/-- C2 (amended): for every validated request, when the proxy call fails
with a `RuntimeError`, both resources respond HTTP 500 with exactly the
message "Exception encountered while processing search request" — the
underlying error text is not included — and the failure does not propagate;
a proxy failure that is not a `RuntimeError` is not converted and escapes
the resource unhandled. -/
theorem proxy_runtimeError_500 {ρ σ σ2 : Type} (proxy : Proxy ρ)
    (schemaT : ρ → σ) (schemaD : ρ → σ2) (req : RawRequest) (args : ParsedArgs)
    (sr : JsonDict) (qt : String) (m : String)
    (hparse : parse_args req = .ok args)
    (hsr : args.search_request = some sr)
    (hqt : args.query_term = some qt)
    (hcolon : char_in ':' qt = false)
    (hproxy : proxy sr qt args.page_index args.index = .error (.runtimeError m)) :
    searchTableFilterAPI_post proxy schemaT req =
      (.response (.message "Exception encountered while processing search request")
        INTERNAL_SERVER_ERROR, [⟨sr, qt, args.page_index, args.index⟩]) ∧
    searchDashboardFilterAPI_post proxy schemaD req =
      (.response (.message "Exception encountered while processing search request")
        INTERNAL_SERVER_ERROR, [⟨sr, qt, args.page_index, args.index⟩]) := by
  have hT := base_post_proxy_error proxy schemaT req args sr qt (.runtimeError m)
    hparse hsr hqt hcolon hproxy
  have hD := base_post_proxy_error proxy schemaD req args sr qt (.runtimeError m)
    hparse hsr hqt hcolon hproxy
  constructor
  · unfold searchTableFilterAPI_post
    rw [hT]
  · unfold searchDashboardFilterAPI_post
    rw [hD]

/-- C2 witness: a concrete validated request on a proxy failing with
`RuntimeError "es down"` gets the generic 500 from both resources. -/
theorem proxy_runtimeError_500_witness :
    @searchTableFilterAPI_post Nat String
        (fun _ _ _ _ => .error (.runtimeError "es down")) (fun n => toString n)
        ⟨[("search_request", .vdict []), ("query_term", .vstr "bar")]⟩ =
      (.response (.message "Exception encountered while processing search request")
        INTERNAL_SERVER_ERROR, [⟨[], "bar", 0, "table"⟩]) ∧
    @searchDashboardFilterAPI_post Nat String
        (fun _ _ _ _ => .error (.runtimeError "es down")) (fun n => toString n)
        ⟨[("search_request", .vdict []), ("query_term", .vstr "bar")]⟩ =
      (.response (.message "Exception encountered while processing search request")
        INTERNAL_SERVER_ERROR, [⟨[], "bar", 0, "table"⟩]) :=
  proxy_runtimeError_500
    (fun _ _ _ _ => .error (.runtimeError "es down"))
    (fun n => toString n) (fun n => toString n)
    ⟨[("search_request", .vdict []), ("query_term", .vstr "bar")]⟩
    ⟨TABLE_INDEX, 0, some "bar", some []⟩ [] "bar" "es down"
    rfl rfl rfl rfl rfl

/-- C3: a present `search_request` together with a `query_term` containing
a colon anywhere yields 400 with exactly
"The query term contains an invalid character", and the proxy is never
called. -/
theorem colon_query_term_400 {ρ σ : Type} (proxy : Proxy ρ) (schema : ρ → σ)
    (req : RawRequest) (args : ParsedArgs) (sr : JsonDict) (qt : String)
    (hparse : parse_args req = .ok args)
    (hsr : args.search_request = some sr)
    (hqt : args.query_term = some qt)
    (hcolon : char_in ':' qt = true) :
    base_post proxy schema req =
      (.response (.message "The query term contains an invalid character")
        BAD_REQUEST, []) := by
  obtain ⟨idx, pi, qt0, sr0⟩ := args
  simp only at hsr hqt
  subst hsr
  subst hqt
  unfold base_post
  rw [hparse]
  simp [hcolon]

/-- C3 witness: `query_term` consisting of the colon alone is rejected with
the literal message and no proxy call. -/
theorem colon_query_term_400_witness :
    @base_post Nat String (fun _ _ _ _ => .ok [1]) (fun n => toString n)
      ⟨[("search_request", .vdict []), ("query_term", .vstr ":")]⟩ =
      (.response (.message "The query term contains an invalid character")
        BAD_REQUEST, []) :=
  colon_query_term_400
    (fun _ _ _ _ => .ok [1]) (fun n => toString n)
    ⟨[("search_request", .vdict []), ("query_term", .vstr ":")]⟩
    ⟨TABLE_INDEX, 0, some ":", some []⟩ [] ":"
    rfl rfl rfl rfl

/-- C4: an absent `search_request` yields 400 with exactly
"The search request payload is not available in the request", and the proxy
is never called. -/
theorem missing_search_request_400 {ρ σ : Type} (proxy : Proxy ρ) (schema : ρ → σ)
    (req : RawRequest) (args : ParsedArgs)
    (hparse : parse_args req = .ok args)
    (hsr : args.search_request = none) :
    base_post proxy schema req =
      (.response (.message "The search request payload is not available in the request")
        BAD_REQUEST, []) := by
  obtain ⟨idx, pi, qt0, sr0⟩ := args
  simp only at hsr
  subst hsr
  unfold base_post
  rw [hparse]

/-- C4 witness: a body with only a `query_term` is rejected with the
missing-payload message and no proxy call. -/
theorem missing_search_request_400_witness :
    @base_post Nat String (fun _ _ _ _ => .ok [2]) (fun n => toString n)
      ⟨[("query_term", .vstr "hello")]⟩ =
      (.response (.message "The search request payload is not available in the request")
        BAD_REQUEST, []) :=
  missing_search_request_400
    (fun _ _ _ _ => .ok [2]) (fun n => toString n)
    ⟨[("query_term", .vstr "hello")]⟩
    ⟨TABLE_INDEX, 0, some "hello", none⟩
    rfl rfl

/-- C5: a request body holding a field outside the four recognized ones is
rejected as a whole before any proxy call, and conversion errors of the
recognized fields are bundled and reported together: every malformed
`page_index` or `search_request` contributes its own entry to the bundle,
which is the complete rejection payload whenever it is nonempty. -/
theorem strict_parsing_rejects {ρ σ : Type} (proxy : Proxy ρ) (schema : ρ → σ)
    (req : RawRequest) (p : String × RawValue)
    (hp : p ∈ req.fields) (hunk : p.1 ∉ recognized_fields) :
    (∃ f, base_post proxy schema req = (.parseFailure f, [])) ∧
    (argErrors req ≠ [] →
      base_post proxy schema req = (.parseFailure (.bundled (argErrors req)), [])) ∧
    (∀ v m, lookupField req "page_index" = some v → int_conv v = .error m →
      ("page_index", m) ∈ argErrors req) ∧
    (∀ v m, lookupField req "search_request" = some v → dict_conv v = .error m →
      ("search_request", m) ∈ argErrors req) := by
  have hmem : p.1 ∈ unknownFields req := by
    unfold unknownFields
    refine List.mem_map.mpr ⟨p, List.mem_filter.mpr ⟨hp, ?_⟩, rfl⟩
    simpa using hunk
  have hunkne : unknownFields req ≠ [] := by
    intro h
    rw [h] at hmem
    exact absurd hmem (List.not_mem_nil _)
  have hbundle : argErrors req ≠ [] →
      base_post proxy schema req = (.parseFailure (.bundled (argErrors req)), []) := by
    intro he
    have hp2 : parse_args req = .error (.bundled (argErrors req)) := by
      unfold parse_args
      rw [if_neg he]
    unfold base_post
    rw [hp2]
  refine ⟨?_, hbundle, ?_, ?_⟩
  · by_cases he : argErrors req = []
    · refine ⟨.unknownArgs (unknownFields req), ?_⟩
      have hp2 : parse_args req = .error (.unknownArgs (unknownFields req)) := by
        unfold parse_args
        rw [if_pos he, if_neg hunkne]
      unfold base_post
      rw [hp2]
    · exact ⟨.bundled (argErrors req), hbundle he⟩
  · intro v m hv hm
    unfold argErrors
    rw [hv]
    simp [hm]
  · intro v m hv hm
    unfold argErrors
    rw [hv]
    simp [hm]

/-- C5 witness: a body with the unknown field "foo" and, at the same time, a
non-integer `page_index` and a non-dict `search_request` is rejected before
any proxy call with both conversion errors bundled together. -/
theorem strict_parsing_rejects_witness :
    @base_post Nat String (fun _ _ _ _ => .ok []) (fun n => toString n)
      ⟨[("foo", .vstr "x"), ("page_index", .vstr "abc"), ("search_request", .vint 7)]⟩ =
      (.parseFailure (.bundled
        [("page_index", "invalid literal for int() with base 10: abc"),
         ("search_request", "cannot convert int to dict")]), []) := by
  have h := strict_parsing_rejects
    (fun _ _ _ _ => Except.ok ([] : List Nat)) (fun n => toString n)
    ⟨[("foo", RawValue.vstr "x"), ("page_index", RawValue.vstr "abc"),
      ("search_request", RawValue.vint 7)]⟩
    ("foo", RawValue.vstr "x") (by decide) (by decide)
  exact (h.2.1 (by decide)).trans (by decide)

/-- C6: with `page_index` omitted the parsed page index is 0, with `index`
omitted the parsed index is the well-known table index name, and on both
the table and the dashboard resource every proxy call receives exactly
these parsed values. -/
theorem omitted_fields_defaults {ρ σ σ2 : Type} (proxy : Proxy ρ)
    (schemaT : ρ → σ) (schemaD : ρ → σ2) (req : RawRequest) (args : ParsedArgs)
    (hparse : parse_args req = .ok args) :
    (lookupField req "page_index" = none → args.page_index = 0) ∧
    (lookupField req "index" = none → args.index = TABLE_INDEX) ∧
    (∀ c ∈ (searchTableFilterAPI_post proxy schemaT req).2,
      c.page_index = args.page_index ∧ c.index = args.index) ∧
    (∀ c ∈ (searchDashboardFilterAPI_post proxy schemaD req).2,
      c.page_index = args.page_index ∧ c.index = args.index) := by
  have hargs := parse_args_ok_inv hparse
  refine ⟨?_, ?_, ?_, ?_⟩
  · intro h
    rw [hargs]
    simp [parsedOf, h]
  · intro h
    rw [hargs]
    simp [parsedOf, h]
  · intro c hc
    rw [searchTable_calls_eq] at hc
    have := base_post_calls proxy schemaT req hparse c hc
    exact ⟨this.2.2.1, this.2.2.2⟩
  · intro c hc
    rw [searchDashboard_calls_eq] at hc
    have := base_post_calls proxy schemaD req hparse c hc
    exact ⟨this.2.2.1, this.2.2.2⟩

/-- C6 witness: on a body omitting both `page_index` and `index`, the parsed
namespace carries page index 0 and the table index name. -/
theorem omitted_fields_defaults_witness :
    (⟨TABLE_INDEX, 0, some "q", some [("k", "v")]⟩ : ParsedArgs).page_index = 0 ∧
    (⟨TABLE_INDEX, 0, some "q", some [("k", "v")]⟩ : ParsedArgs).index = TABLE_INDEX := by
  have h := @omitted_fields_defaults Nat String String
    (fun _ _ _ _ => Except.ok []) (fun n => toString n) (fun n => toString n)
    ⟨[("search_request", RawValue.vdict [("k", "v")]), ("query_term", RawValue.vstr "q")]⟩
    ⟨TABLE_INDEX, 0, some "q", some [("k", "v")]⟩ rfl
  exact ⟨h.1 rfl, h.2.1 rfl⟩

/-- C7: the `search_request` check precedes the `query_term` check: when
`search_request` is absent the response is the missing-payload 400 even
when `query_term` also contains a colon, and the proxy is not called. -/
theorem missing_payload_precedes_colon {ρ σ : Type} (proxy : Proxy ρ) (schema : ρ → σ)
    (req : RawRequest) (args : ParsedArgs) (qt : String)
    (hparse : parse_args req = .ok args)
    (hsr : args.search_request = none)
    (_hqt : args.query_term = some qt)
    (_hcolon : char_in ':' qt = true) :
    base_post proxy schema req =
      (.response (.message "The search request payload is not available in the request")
        BAD_REQUEST, []) := by
  obtain ⟨idx, pi, qt0, sr0⟩ := args
  simp only at hsr
  subst hsr
  unfold base_post
  rw [hparse]

/-- C7 witness: a body whose `query_term` is "a:b" but whose
`search_request` is absent gets the missing-payload message, not the
invalid-character one, and no proxy call. -/
theorem missing_payload_precedes_colon_witness :
    @base_post Nat String (fun _ _ _ _ => .ok [9]) (fun n => toString n)
      ⟨[("query_term", .vstr "a:b"), ("page_index", .vint 1)]⟩ =
      (.response (.message "The search request payload is not available in the request")
        BAD_REQUEST, []) :=
  missing_payload_precedes_colon
    (fun _ _ _ _ => .ok [9]) (fun n => toString n)
    ⟨[("query_term", .vstr "a:b"), ("page_index", .vint 1)]⟩
    ⟨TABLE_INDEX, 1, some "a:b", none⟩ "a:b"
    rfl rfl rfl (by decide)

/-- The base handler's outcome does not depend on the bound schema except
through the serialized items, and its proxy calls do not depend on it at
all. -/
theorem base_post_schema_independent {ρ σ σ2 : Type} (proxy : Proxy ρ)
    (f : ρ → σ) (g : ρ → σ2) (req : RawRequest) :
    erasePost (base_post proxy f req).1 = erasePost (base_post proxy g req).1 ∧
    (base_post proxy f req).2 = (base_post proxy g req).2 := by
  unfold base_post
  cases hp : parse_args req with
  | error fl => simp [erasePost]
  | ok args =>
    obtain ⟨idx, pi, qt0, sr0⟩ := args
    cases sr0 with
    | none => simp [erasePost, eraseItems]
    | some sr =>
      cases qt0 with
      | none => simp [erasePost]
      | some qt =>
        by_cases hcolon : char_in ':' qt
        · simp [hcolon, erasePost, eraseItems]
        · cases hproxy : proxy sr qt pi idx with
          | ok rs =>
            simp [hcolon, hproxy, erasePost, eraseItems, List.map_map, Function.comp]
          | error e => simp [hcolon, hproxy, erasePost]

/-- C8: on every request body the table resource and the dashboard resource
behave identically up to the bound result schema: after forgetting the
serialized items, outcomes (statuses, the two 400 messages, the 500
message, parse failures, propagating exceptions) coincide, and so do the
proxy calls made. -/
theorem table_dashboard_agree {ρ σ σ2 : Type} (proxy : Proxy ρ)
    (schemaT : ρ → σ) (schemaD : ρ → σ2) (req : RawRequest) :
    erasePost (searchTableFilterAPI_post proxy schemaT req).1 =
      erasePost (searchDashboardFilterAPI_post proxy schemaD req).1 ∧
    (searchTableFilterAPI_post proxy schemaT req).2 =
      (searchDashboardFilterAPI_post proxy schemaD req).2 := by
  obtain ⟨h1, h2⟩ := base_post_schema_independent proxy schemaT schemaD req
  unfold searchTableFilterAPI_post searchDashboardFilterAPI_post
  rcases hb1 : base_post proxy schemaT req with ⟨r1, c1⟩
  rcases hb2 : base_post proxy schemaD req with ⟨r2, c2⟩
  rw [hb1, hb2] at h1 h2
  simp only at h1 h2
  subst h2
  cases r1 with
  | parseFailure fl => cases r2 <;> simp_all [erasePost, eraseItems]
  | response b s =>
      cases r2 with
      | parseFailure fl2 => simp_all [erasePost]
      | raised e2 => cases e2 <;> simp_all [erasePost]
      | response b2 s2 =>
          cases b <;> cases b2 <;> simp_all [erasePost, eraseItems]
  | raised e =>
      cases r2 with
      | parseFailure fl2 => cases e <;> simp_all [erasePost]
      | response b2 s2 => cases e <;> simp_all [erasePost]
      | raised e2 => cases e <;> cases e2 <;> simp_all [erasePost, eraseItems]

/-- C9: with `search_request` present but `query_term` absent, the
membership test hits `None` and raises `TypeError`; the base handler
produces neither 200 nor either documented 400, the proxy is never called,
and the table resource does not catch the `TypeError` either. -/
theorem absent_query_term_typeError {ρ σ : Type} (proxy : Proxy ρ) (schema : ρ → σ)
    (req : RawRequest) (args : ParsedArgs) (sr : JsonDict)
    (hparse : parse_args req = .ok args)
    (hsr : args.search_request = some sr)
    (hqt : args.query_term = none) :
    base_post proxy schema req =
      (.raised (.typeError "argument of type NoneType is not iterable"), []) ∧
    searchTableFilterAPI_post proxy schema req =
      (.raised (.typeError "argument of type NoneType is not iterable"), []) := by
  have hb : base_post proxy schema req =
      (.raised (.typeError "argument of type NoneType is not iterable"), []) := by
    obtain ⟨idx, pi, qt0, sr0⟩ := args
    simp only at hsr hqt
    subst hsr
    subst hqt
    unfold base_post
    rw [hparse]
  refine ⟨hb, ?_⟩
  unfold searchTableFilterAPI_post
  rw [hb]

/-- C9 witness: a body carrying only a `search_request` makes the handler
raise `TypeError` with no proxy call, and the exception escapes the table
resource. -/
theorem absent_query_term_typeError_witness :
    @base_post Nat String (fun _ _ _ _ => .ok [4]) (fun n => toString n)
      ⟨[("search_request", .vdict [("f", "g")])]⟩ =
      (.raised (.typeError "argument of type NoneType is not iterable"), []) ∧
    @searchTableFilterAPI_post Nat String (fun _ _ _ _ => .ok [4]) (fun n => toString n)
      ⟨[("search_request", .vdict [("f", "g")])]⟩ =
      (.raised (.typeError "argument of type NoneType is not iterable"), []) :=
  absent_query_term_typeError
    (fun _ _ _ _ => .ok [4]) (fun n => toString n)
    ⟨[("search_request", .vdict [("f", "g")])]⟩
    ⟨TABLE_INDEX, 0, none, some [("f", "g")]⟩ [("f", "g")]
    rfl rfl rfl

/-- C10: a supplied negative `page_index` passes validation untouched: the
parsed page index is the negative value itself and the single proxy call
receives it unchanged. -/
theorem negative_page_index_forwarded {ρ σ : Type} (proxy : Proxy ρ) (schema : ρ → σ)
    (req : RawRequest) (args : ParsedArgs) (sr : JsonDict) (qt : String) (n : Int)
    (hparse : parse_args req = .ok args)
    (hpi : lookupField req "page_index" = some (.vint n))
    (_hneg : n < 0)
    (hsr : args.search_request = some sr)
    (hqt : args.query_term = some qt)
    (hcolon : char_in ':' qt = false) :
    args.page_index = n ∧
    (base_post proxy schema req).2 = [⟨sr, qt, n, args.index⟩] := by
  have hargs := parse_args_ok_inv hparse
  have hpage : args.page_index = n := by
    rw [hargs]
    simp [parsedOf, hpi, int_conv]
  refine ⟨hpage, ?_⟩
  rw [← hpage]
  exact base_post_call_made proxy schema req args sr qt hparse hsr hqt hcolon

/-- C10 witness: `page_index = -3` is parsed as −3 and forwarded to the
proxy as −3. -/
theorem negative_page_index_forwarded_witness :
    ((⟨TABLE_INDEX, -3, some "term", some []⟩ : ParsedArgs).page_index = (-3 : Int)) ∧
    (@base_post Nat String (fun _ _ _ _ => .ok []) (fun n => toString n)
      ⟨[("search_request", .vdict []), ("query_term", .vstr "term"),
        ("page_index", .vint (-3))]⟩).2 =
      [⟨[], "term", -3, TABLE_INDEX⟩] :=
  negative_page_index_forwarded
    (fun _ _ _ _ => .ok []) (fun n => toString n)
    ⟨[("search_request", .vdict []), ("query_term", .vstr "term"),
      ("page_index", .vint (-3))]⟩
    ⟨TABLE_INDEX, -3, some "term", some []⟩ [] "term" (-3)
    rfl rfl (by decide) rfl rfl rfl

end SearchService
